import Mathlib

/-!
Verification of the task-orchestration subsystem of the whatsapp-secretary
backend: a shallow embedding of the task data model (`database/models.py`),
the task manager operations (`tasks/task_manager.py`), the agent execution
wrapper (`agents/base_agent.py`), the dispatch loop
(`services/agent_service.py`) and the orchestrator routing algorithm
(`agents/orchestrator.py`), together with theorems settling the spec's
claims about them.

Modelling conventions: wall-clock timestamps (`datetime.now()`) become an
explicit `now : Nat` argument; database rows live in a `Store` holding the
list of task records and the in-process `asyncio.Queue` of task ids; a
Python `Optional[X]` field becomes `Option X`; JSON payloads produced by
agents are carried as string key/value lists (their contents are opaque to
the task manager).  `json.loads` (Python standard library, external to the
repository) is modelled by a recursive-descent parser for the JSON fragment
exercised here (null, booleans, integers, escape-free strings, arrays,
objects).
-/

namespace Orchestration

/-- Task status enumeration, from `TaskStatus` in `database/models.py`. -/
inductive TaskStatus where
  | pending
  | in_progress
  | waiting_input
  | waiting_approval
  | completed
  | failed
  | cancelled
deriving DecidableEq, Repr

/-- Task kind enumeration, from `TaskType` in `database/models.py`. -/
inductive TaskType where
  | appointment_booking
  | appointment_reschedule
  | appointment_cancel
  | information_query
  | file_processing
  | authorization_request
  | reminder
  | general_inquiry
  | triage
  | conversation_archive
  | message_sync
  | database_cleanup
  | metadata_update
  | status_update
  | document_analysis
deriving DecidableEq, Repr

/-- The `.value` string of each `TaskType` member. -/
def TaskType.value : TaskType → String
  | .appointment_booking => "appointment_booking"
  | .appointment_reschedule => "appointment_reschedule"
  | .appointment_cancel => "appointment_cancel"
  | .information_query => "information_query"
  | .file_processing => "file_processing"
  | .authorization_request => "authorization_request"
  | .reminder => "reminder"
  | .general_inquiry => "general_inquiry"
  | .triage => "triage"
  | .conversation_archive => "conversation_archive"
  | .message_sync => "message_sync"
  | .database_cleanup => "database_cleanup"
  | .metadata_update => "metadata_update"
  | .status_update => "status_update"
  | .document_analysis => "document_analysis"

/-- A task record, from the `Task` ORM model in `database/models.py`.
Timestamps are logical clock values (`Nat`); `input_data` is the raw JSON
text column; `output_data` holds the written result payload as a key/value
list (the task manager never inspects it). -/
structure Task where
  id : Nat
  task_type : TaskType
  status : TaskStatus
  priority : Int
  chat_id : String
  message_id : Option String
  assigned_agent : Option String
  input_data : Option String
  output_data : Option (List (String × String))
  error_message : Option String
  parent_task_id : Option Nat
  step_number : Nat
  total_steps : Nat
  created_at : Nat
  started_at : Option Nat
  completed_at : Option Nat
  deadline : Option Nat
  retry_count : Nat
  max_retries : Nat
deriving DecidableEq, Repr

/-- The mutable state the task manager operates on: the `tasks` table, the
in-process `asyncio.Queue` of task ids (`TaskManager.task_queue`), and the
autoincrement counter backing `Task.id`. -/
structure Store where
  tasks : List Task
  queue : List Nat
  next_id : Nat
deriving DecidableEq, Repr

/-- `db.query(Task).filter(Task.id == task_id).first()`, as used by every
task-manager operation (and `TaskManager.get_task`). -/
def get_task (s : Store) (tid : Nat) : Option Task :=
  s.tasks.find? (fun t => t.id == tid)

/-- Committing field updates of the row with id `tid` (the ORM mutate-and-
commit idiom used throughout `task_manager.py` and `base_agent.py`). -/
def modify_task (s : Store) (tid : Nat) (f : Task → Task) : Store :=
  { s with tasks := s.tasks.map (fun u => if u.id == tid then f u else u) }

/-- Python truthiness of the `error_message: Optional[str]` argument
(`if error_message:` in `update_task_status`). -/
def strTruthy : Option String → Bool
  | none => false
  | some s => !(s == "")

/-- Python truthiness of the `output_data: Optional[Dict]` argument
(`if output_data:` in `update_task_status`): `None` and `{}` are falsy. -/
def dictTruthy : Option (List (String × String)) → Bool
  | none => false
  | some [] => false
  | some (_ :: _) => true

/-- `TaskManager.create_task` (task_manager.py lines 43-99): builds a row
with `status=PENDING` and the model defaults (`step_number=1`,
`total_steps=1`, `retry_count=0`, `max_retries=3`), commits it, then
enqueues the id.  The `input_data` argument is the already-serialized JSON
text (`json.dumps(input_data) if input_data else None`). -/
def create_task (s : Store) (task_type : TaskType) (chat_id : String)
    (message_id : Option String) (input_data : Option String)
    (priority : Int) (deadline : Option Nat) (now : Nat) : Task × Store :=
  let t : Task :=
    { id := s.next_id
      task_type := task_type
      status := TaskStatus.pending
      priority := priority
      chat_id := chat_id
      message_id := message_id
      assigned_agent := none
      input_data := input_data
      output_data := none
      error_message := none
      parent_task_id := none
      step_number := 1
      total_steps := 1
      created_at := now
      started_at := none
      completed_at := none
      deadline := deadline
      retry_count := 0
      max_retries := 3 }
  (t, { tasks := s.tasks ++ [t]
        queue := s.queue ++ [t.id]
        next_id := s.next_id + 1 })

/-- The field updates `TaskManager.update_task_status` commits on the found
row (task_manager.py lines 241-252): the status is set unconditionally,
output/error are written when truthy, and `completed_at` is stamped only
when the new status is `COMPLETED`. -/
def update_fields (status : TaskStatus) (output_data : Option (List (String × String)))
    (error_message : Option String) (now : Nat) (t : Task) : Task :=
  { t with
      status := status
      output_data := if dictTruthy output_data then output_data else t.output_data
      error_message := if strTruthy error_message then error_message else t.error_message
      completed_at := if status = TaskStatus.completed then some now else t.completed_at }

/-- `TaskManager.update_task_status` (task_manager.py lines 215-260). -/
def update_task_status (s : Store) (tid : Nat) (status : TaskStatus)
    (output_data : Option (List (String × String)))
    (error_message : Option String) (now : Nat) : Bool × Store :=
  match get_task s tid with
  | none => (false, s)
  | some _ => (true, modify_task s tid (update_fields status output_data error_message now))

/-- `TaskManager.retry_failed_task` (task_manager.py lines 262-303). -/
def retry_failed_task (s : Store) (tid : Nat) : Bool × Store :=
  match get_task s tid with
  | none => (false, s)
  | some t =>
    if t.status ≠ TaskStatus.failed then (false, s)
    else if t.retry_count ≥ t.max_retries then (false, s)
    else
      let s1 := modify_task s tid (fun u =>
        { u with
            status := TaskStatus.pending
            retry_count := u.retry_count + 1
            error_message := none
            started_at := none
            completed_at := none })
      (true, { s1 with queue := s1.queue ++ [tid] })

/-- `TaskManager.cancel_task` (task_manager.py lines 305-337): cancels any
existing row, with no status precondition. -/
def cancel_task (s : Store) (tid : Nat) (reason : String) (now : Nat) : Bool × Store :=
  match get_task s tid with
  | none => (false, s)
  | some _ =>
    (true, modify_task s tid (fun u =>
      { u with
          status := TaskStatus.cancelled
          error_message := some (if reason ≠ "" then "Cancelled: " ++ reason else "Cancelled by user")
          completed_at := some now }))

/-- The ordering key of `get_pending_tasks`:
`order_by(Task.priority.asc(), Task.created_at.asc())`. -/
def pendingOrder (a b : Task) : Prop :=
  a.priority < b.priority ∨ (a.priority = b.priority ∧ a.created_at ≤ b.created_at)

instance : DecidableRel pendingOrder := fun a b => by
  unfold pendingOrder; infer_instance

instance : IsTotal Task pendingOrder := by
  constructor
  intro a b
  unfold pendingOrder
  rcases lt_trichotomy a.priority b.priority with h | h | h
  · exact Or.inl (Or.inl h)
  · rcases Nat.le_total a.created_at b.created_at with h2 | h2
    · exact Or.inl (Or.inr ⟨h, h2⟩)
    · exact Or.inr (Or.inr ⟨h.symm, h2⟩)
  · exact Or.inr (Or.inl h)

instance : IsTrans Task pendingOrder := by
  constructor
  intro a b c hab hbc
  unfold pendingOrder at *
  rcases hab with h1 | ⟨h1, h1c⟩
  · rcases hbc with h2 | ⟨h2, _⟩
    · exact Or.inl (h1.trans h2)
    · exact Or.inl (h2 ▸ h1)
  · rcases hbc with h2 | ⟨h2, h2c⟩
    · exact Or.inl (h1 ▸ h2)
    · exact Or.inr ⟨h1.trans h2, h1c.trans h2c⟩

/-- `TaskManager.get_pending_tasks` (task_manager.py lines 159-184): filter
`status == PENDING` (plus the optional kind filter), order by
`(priority asc, created_at asc)`, truncate to `limit`. -/
def get_pending_tasks (s : Store) (limit : Nat) (task_type : Option TaskType) : List Task :=
  let base := s.tasks.filter (fun t => t.status == TaskStatus.pending)
  let filtered := match task_type with
    | none => base
    | some k => base.filter (fun t => t.task_type == k)
  (filtered.insertionSort pendingOrder).take limit

/-- The structured result dictionary returned by `BaseAgent.process` /
`BaseAgent.execute` (base_agent.py): `success`, `response`, `data`,
optional `error`.  `data` payloads are opaque key/value lists here. -/
structure ProcessResult where
  success : Bool
  response : String
  data : List (String × String)
  error : Option String
deriving DecidableEq, Repr

/-- How a `process(task)` call ends: a returned result dictionary, or a
raised exception (caught by `execute`'s `except` clause). -/
inductive ProcOutcome where
  | ok (r : ProcessResult)
  | exn (msg : String)
deriving DecidableEq, Repr

/-- The first committed write of `BaseAgent.execute` (base_agent.py lines
99-103): status to `IN_PROGRESS`, `started_at` stamped, `assigned_agent`
set. -/
def exec_begin (s : Store) (tid : Nat) (agent : String) (now : Nat) : Store :=
  modify_task s tid (fun t =>
    { t with
        status := TaskStatus.in_progress
        started_at := some now
        assigned_agent := some agent })

/-- The second committed write of `BaseAgent.execute` (base_agent.py lines
113-139): on a returned result, `output_data` is always written and the
status becomes `COMPLETED` (stamping `completed_at`) or `FAILED` (writing
`error_message`, `completed_at` untouched); on a caught exception the
status becomes `FAILED` with the exception text, with no output write. -/
def exec_finish (s : Store) (tid : Nat) (outcome : ProcOutcome) (now : Nat) : Store :=
  match outcome with
  | .ok r =>
    modify_task s tid (fun t =>
      if r.success then
        { t with
            output_data := some r.data
            status := TaskStatus.completed
            completed_at := some now }
      else
        { t with
            output_data := some r.data
            status := TaskStatus.failed
            error_message := some (r.error.getD "Unknown error") })
  | .exn m =>
    modify_task s tid (fun t =>
      { t with status := TaskStatus.failed, error_message := some m })

/-- The dictionary `BaseAgent.execute` returns to its caller. -/
def execute_result (outcome : ProcOutcome) : ProcessResult :=
  match outcome with
  | .ok r => r
  | .exn m =>
    { success := false
      response := "An error occurred while processing your request: " ++ m
      data := []
      error := some m }

/-- `BaseAgent.execute` (base_agent.py lines 85-153), as the composition of
its two committed writes, parameterized by the outcome of `process`. -/
def execute (s : Store) (tid : Nat) (agent : String) (outcome : ProcOutcome)
    (now : Nat) : ProcessResult × Store :=
  (execute_result outcome, exec_finish (exec_begin s tid agent now) tid outcome now)

/-- `BaseAgent.create_subtask` (base_agent.py lines 260-304): inherits
`chat_id`/`message_id` from the parent, links `parent_task_id`, increments
`step_number`; the subtask is committed but NOT enqueued. -/
def create_subtask (s : Store) (parent_tid : Nat) (task_type : TaskType)
    (input_data : Option String) (priority : Int) (now : Nat) : Store :=
  match get_task s parent_tid with
  | none => s
  | some p =>
    let t : Task :=
      { id := s.next_id
        task_type := task_type
        status := TaskStatus.pending
        priority := priority
        chat_id := p.chat_id
        message_id := p.message_id
        assigned_agent := none
        input_data := input_data
        output_data := none
        error_message := none
        parent_task_id := some p.id
        step_number := p.step_number + 1
        total_steps := p.total_steps
        created_at := now
        started_at := none
        completed_at := none
        deadline := none
        retry_count := 0
        max_retries := 3 }
    { s with tasks := s.tasks ++ [t], next_id := s.next_id + 1 }

/-- The two agents `AgentService._register_agents` registers, in
registration order (agent_service.py lines 31-41). -/
inductive AgentKind where
  | orchestrator
  | conversation_manager
deriving DecidableEq, Repr

/-- Each agent's `agent_type` property string. -/
def AgentKind.agent_type : AgentKind → String
  | .orchestrator => "orchestrator"
  | .conversation_manager => "conversation_manager"

/-- The registered agents' `can_handle` predicates: `OrchestratorAgent`
handles `TRIAGE` (orchestrator.py lines 38-42); `ConversationManagerAgent`
handles the five conversation-management kinds (conversation_manager.py
lines 41-51). -/
def can_handle (a : AgentKind) (t : Task) : Bool :=
  match a with
  | .orchestrator => t.task_type == TaskType.triage
  | .conversation_manager =>
    [TaskType.conversation_archive, TaskType.message_sync, TaskType.database_cleanup,
      TaskType.metadata_update, TaskType.status_update].contains t.task_type

/-- The registration order of `AgentService._register_agents`. -/
def registered_agents : List AgentKind := [AgentKind.orchestrator, AgentKind.conversation_manager]

/-- `AgentService._find_agent_for_task` (agent_service.py lines 80-94):
first registered agent whose `can_handle` returns true. -/
def find_agent_for_task (t : Task) : Option AgentKind :=
  registered_agents.find? (fun a => can_handle a t)

/-- `AgentService.process_task` (agent_service.py lines 43-78): with no
capable agent it returns an in-memory failure dictionary and performs no
store write; otherwise it runs `execute`.  `outcome` supplies each agent's
`process` result. -/
def process_task (s : Store) (t : Task) (outcome : AgentKind → ProcOutcome)
    (now : Nat) : ProcessResult × Store :=
  match find_agent_for_task t with
  | none =>
    ({ success := false
       response := "Unable to process this type of request"
       data := []
       error := some ("No agent available to handle task type: " ++ t.task_type.value) }, s)
  | some a => execute s t.id a.agent_type (outcome a) now

/-- One iteration of the `AgentService.start_processing` loop
(agent_service.py lines 114-137): dequeue an id, load the task, skip it if
missing or not `PENDING`, otherwise run `process_task` (whose returned
dictionary is discarded). -/
def dispatch_iteration (s : Store) (outcome : AgentKind → ProcOutcome) (now : Nat) : Store :=
  match s.queue with
  | [] => s
  | tid :: rest =>
    let s1 : Store := { s with queue := rest }
    match get_task s1 tid with
    | none => s1
    | some t =>
      if t.status ≠ TaskStatus.pending then s1
      else (process_task s1 t outcome now).2

/-- The public operations that mutate the store: task-manager calls,
subtask creation, the execution wrapper, and dispatch-loop iterations. -/
inductive Op where
  | create (task_type : TaskType) (chat_id : String) (message_id : Option String)
      (input_data : Option String) (priority : Int) (deadline : Option Nat) (now : Nat)
  | subtask (parent : Nat) (task_type : TaskType) (input_data : Option String)
      (priority : Int) (now : Nat)
  | update (tid : Nat) (status : TaskStatus) (output : Option (List (String × String)))
      (err : Option String) (now : Nat)
  | retry (tid : Nat)
  | cancel (tid : Nat) (reason : String) (now : Nat)
  | exec (tid : Nat) (agent : String) (outcome : ProcOutcome) (now : Nat)
  | dispatch (outcome : AgentKind → ProcOutcome) (now : Nat)

/-- The store effect of each operation. -/
def applyOp (s : Store) : Op → Store
  | .create tt c m i p d n => (create_task s tt c m i p d n).2
  | .subtask pt tt i p n => create_subtask s pt tt i p n
  | .update tid st o e n => (update_task_status s tid st o e n).2
  | .retry tid => (retry_failed_task s tid).2
  | .cancel tid r n => (cancel_task s tid r n).2
  | .exec tid a oc n => (execute s tid a oc n).2
  | .dispatch oc n => dispatch_iteration s oc n

/-- Running a sequence of operations. -/
def runOps (s : Store) (ops : List Op) : Store := ops.foldl applyOp s

/-- Python's `str.lower()` (`message.lower()` in `analyze_intent`),
lowercasing ASCII letters characterwise. -/
def py_lower (s : String) : String := String.mk (s.data.map Char.toLower)

/-- Python's `str.strip()` (the `.strip()` call in `process`): drop
leading and trailing whitespace. -/
def py_strip (s : String) : String :=
  String.mk (((s.data.dropWhile Char.isWhitespace).reverse.dropWhile Char.isWhitespace).reverse)

/-- Python's substring operator `needle in hay` on character lists. -/
def containsSub (hay needle : List Char) : Bool :=
  match hay with
  | [] => needle.isEmpty
  | _ :: rest => needle.isPrefixOf hay || containsSub rest needle

/-- Python's `kw in message` substring test on strings. -/
def strContains (hay needle : String) : Bool :=
  containsSub hay.data needle.data

/-- `appointment_keywords` (orchestrator.py lines 129-133). -/
def appointment_keywords : List String :=
  ["appointment", "book", "schedule", "reserve", "meeting",
   "reschedule", "cancel", "change", "available", "availability",
   "time slot", "calendar", "when can", "free time"]

/-- `reschedule_keywords` (orchestrator.py line 136). -/
def reschedule_keywords : List String :=
  ["reschedule", "change", "move", "different time", "different date"]

/-- `cancel_keywords` (orchestrator.py line 139). -/
def cancel_keywords : List String :=
  ["cancel", "delete", "remove appointment"]

/-- `info_keywords` (orchestrator.py lines 142-146). -/
def info_keywords : List String :=
  ["what is", "how much", "price", "cost", "hours", "open",
   "location", "address", "where", "services", "what do you",
   "tell me about", "information", "details"]

/-- `greeting_keywords` (orchestrator.py line 149). -/
def greeting_keywords : List String :=
  ["hello", "hi", "hey", "good morning", "good afternoon", "good evening"]

/-- `file_keywords` (orchestrator.py line 152). -/
def file_keywords : List String :=
  ["send", "file", "document", "photo", "image", "picture", "attachment"]

/-- `sum(1 for kw in keywords if kw in message)` (orchestrator.py lines
155-160). -/
def countMatches (message : String) (kws : List String) : Nat :=
  (kws.filter (fun kw => strContains message kw)).length

/-- The intent-analysis dictionary built by the routing tiers.  The keyword
tier fills every field; an LLM-produced dictionary always carries
`task_type` and `method` but may omit `agent_type` / `confidence` /
`keywords_matched` (read back with `.get` defaults in `process`).
Confidence values are exact rationals standing for the Python float
literals. -/
structure IntentAnalysis where
  task_type : TaskType
  agent_type : Option String
  confidence : Option ℚ
  keywords_matched : Option Nat
  method : String
deriving DecidableEq, Repr

/-- `OrchestratorAgent._keyword_based_routing` (orchestrator.py lines
118-224), on the already-lowercased message. -/
def keyword_based_routing (message : String) : IntentAnalysis :=
  let appointment_score := countMatches message appointment_keywords
  let reschedule_score := countMatches message reschedule_keywords
  let cancel_score := countMatches message cancel_keywords
  let info_score := countMatches message info_keywords
  let greeting_score := countMatches message greeting_keywords
  let file_score := countMatches message file_keywords
  if cancel_score > 0 ∧ appointment_score > 0 then
    { task_type := TaskType.appointment_cancel
      agent_type := some "appointment_agent"
      confidence := some (min (9/10 : ℚ) (7/10 + (cancel_score : ℚ) * (1/10)))
      keywords_matched := some (cancel_score + appointment_score)
      method := "keyword" }
  else if reschedule_score > 0 ∧ appointment_score > 0 then
    { task_type := TaskType.appointment_reschedule
      agent_type := some "appointment_agent"
      confidence := some (min (9/10 : ℚ) (7/10 + (reschedule_score : ℚ) * (1/10)))
      keywords_matched := some (reschedule_score + appointment_score)
      method := "keyword" }
  else if appointment_score ≥ 2 then
    { task_type := TaskType.appointment_booking
      agent_type := some "appointment_agent"
      confidence := some (min (9/10 : ℚ) (6/10 + (appointment_score : ℚ) * (1/10)))
      keywords_matched := some appointment_score
      method := "keyword" }
  else if info_score ≥ 2 then
    { task_type := TaskType.information_query
      agent_type := some "inquiry_agent"
      confidence := some (min (8/10 : ℚ) (6/10 + (info_score : ℚ) * (1/10)))
      keywords_matched := some info_score
      method := "keyword" }
  else if file_score ≥ 1 then
    { task_type := TaskType.file_processing
      agent_type := some "file_agent"
      confidence := some (7/10 : ℚ)
      keywords_matched := some file_score
      method := "keyword" }
  else if greeting_score ≥ 1 then
    { task_type := TaskType.general_inquiry
      agent_type := some "triage_agent"
      confidence := some (8/10 : ℚ)
      keywords_matched := some greeting_score
      method := "keyword" }
  else
    { task_type := TaskType.general_inquiry
      agent_type := some "inquiry_agent"
      confidence := some (4/10 : ℚ)
      keywords_matched := some 0
      method := "fallback" }

/-- `OrchestratorAgent.analyze_intent` (orchestrator.py lines 89-116):
lower-case the message, run the keyword tier, accept it when its
confidence exceeds 0.8, otherwise consult the LLM tier when a backend is
configured (`llm_result` is the dictionary `_llm_based_routing` returns,
`none` when the call fails, parses to nothing, or yields a falsy value),
falling back to the keyword analysis. -/
def analyze_intent (message : String) (llm_configured : Bool)
    (llm_result : Option IntentAnalysis) : IntentAnalysis :=
  let keyword_analysis := keyword_based_routing (py_lower message)
  if keyword_analysis.confidence.getD 0 > (8/10 : ℚ) then keyword_analysis
  else if llm_configured then
    match llm_result with
    | some a => a
    | none => keyword_analysis
  else keyword_analysis

/-- The `data` payload of a successful `OrchestratorAgent.process` result
(orchestrator.py lines 78-87). -/
structure RoutingData where
  intent : IntentAnalysis
  routed_to : String
  task_type_value : String
  confidence : ℚ
deriving DecidableEq, Repr

/-- The result dictionary of `OrchestratorAgent.process`.  The
human-readable `response` strings from `_generate_response` are elided
(empty) — no claim concerns them. -/
structure OrchestratorResult where
  success : Bool
  response : String
  error : Option String
  data : Option RoutingData
deriving DecidableEq, Repr

/-- `OrchestratorAgent.process` (orchestrator.py lines 44-87),
parameterized by the message body extracted from the task context and by
the LLM tier's outcome.  An empty (stripped) message short-circuits to a
failure result; otherwise the intent analysis is read back with the
`.get` defaults (`agent_type` default "general", `confidence` default
0.5) and wrapped in a success result. -/
def orchestrator_process (message_body : String) (llm_configured : Bool)
    (llm_result : Option IntentAnalysis) : OrchestratorResult :=
  let message := py_strip message_body
  if message == "" then
    { success := false
      response := ""
      error := some "No message content to process"
      data := none }
  else
    let ia := analyze_intent message llm_configured llm_result
    { success := true
      response := ""
      error := none
      data := some
        { intent := ia
          routed_to := ia.agent_type.getD "general"
          task_type_value := ia.task_type.value
          confidence := ia.confidence.getD (1/2) } }

/-- A JSON value, as produced by Python's `json.loads`. -/
inductive JValue where
  | null
  | bool (b : Bool)
  | num (n : Int)
  | str (s : String)
  | arr (elems : List JValue)
  | obj (fields : List (String × JValue))

/-- Whether a JSON value is a key/value mapping (a Python `dict`). -/
def JValue.isMapping : JValue → Bool
  | .obj _ => true
  | _ => false

/-- JSON whitespace. -/
def isWsChar (c : Char) : Bool :=
  c == ' ' || c == '\t' || c == '\n' || c == '\r'

/-- Drop leading JSON whitespace. -/
def skipWs : List Char → List Char
  | [] => []
  | c :: rest => if isWsChar c then skipWs rest else c :: rest

/-- Decimal digits to a natural number. -/
def charsToNat (ds : List Char) : Nat :=
  ds.foldl (fun a c => a * 10 + (c.toNat - 48)) 0

/-- Parse a JSON string body after the opening quote (escape-free
fragment). -/
def pStringBody (cs : List Char) : Option (String × List Char) :=
  let p := cs.span (fun c => !(c == '\"'))
  match p.2 with
  | '\"' :: rest => some (String.mk p.1, rest)
  | _ => none

/- Recursive-descent parser for the JSON fragment modelling Python's
`json.loads` (standard library, external to the repository): null,
booleans, integers, escape-free strings, arrays, objects.  Fuelled to make
termination structural; `json_loads` supplies ample fuel. -/
mutual
/-- Parse one JSON value. -/
def pValue : Nat → List Char → Option (JValue × List Char)
  | 0, _ => none
  | fuel + 1, cs =>
    match skipWs cs with
    | [] => none
    | c :: rest =>
      if c == 'n' then
        if ['u', 'l', 'l'].isPrefixOf rest then some (JValue.null, rest.drop 3) else none
      else if c == 't' then
        if ['r', 'u', 'e'].isPrefixOf rest then some (JValue.bool true, rest.drop 3) else none
      else if c == 'f' then
        if ['a', 'l', 's', 'e'].isPrefixOf rest then some (JValue.bool false, rest.drop 4) else none
      else if c == '\"' then
        match pStringBody rest with
        | some (s, r) => some (JValue.str s, r)
        | none => none
      else if c == '[' then
        match skipWs rest with
        | ']' :: r2 => some (JValue.arr [], r2)
        | _ =>
          match pElems fuel rest with
          | some (vs, r2) => some (JValue.arr vs, r2)
          | none => none
      else if c == '\x7b' then
        match skipWs rest with
        | '\x7d' :: r2 => some (JValue.obj [], r2)
        | _ =>
          match pFields fuel rest with
          | some (fs, r2) => some (JValue.obj fs, r2)
          | none => none
      else if c == '-' then
        match rest.span (fun ch => ch.isDigit) with
        | (d :: ds, r2) => some (JValue.num (-(Int.ofNat (charsToNat (d :: ds)))), r2)
        | ([], _) => none
      else if c.isDigit then
        let p := (c :: rest).span (fun ch => ch.isDigit)
        some (JValue.num (Int.ofNat (charsToNat p.1)), p.2)
      else none

/-- Parse the comma-separated elements of an array up to `]`. -/
def pElems : Nat → List Char → Option (List JValue × List Char)
  | 0, _ => none
  | fuel + 1, cs =>
    match pValue fuel cs with
    | none => none
    | some (v, r) =>
      match skipWs r with
      | ',' :: r2 =>
        match pElems fuel r2 with
        | some (vs, r3) => some (v :: vs, r3)
        | none => none
      | ']' :: r2 => some ([v], r2)
      | _ => none

/-- Parse the comma-separated members of an object up to the closing
brace. -/
def pFields : Nat → List Char → Option (List (String × JValue) × List Char)
  | 0, _ => none
  | fuel + 1, cs =>
    match skipWs cs with
    | '\"' :: r =>
      match pStringBody r with
      | none => none
      | some (k, r1) =>
        match skipWs r1 with
        | ':' :: r2 =>
          match pValue fuel r2 with
          | none => none
          | some (v, r3) =>
            match skipWs r3 with
            | ',' :: r4 =>
              match pFields fuel r4 with
              | some (fs, r5) => some ((k, v) :: fs, r5)
              | none => none
            | '\x7d' :: r4 => some ([(k, v)], r4)
            | _ => none
        | _ => none
    | _ => none
end

/-- Model of `json.loads`: parse one value, require only trailing
whitespace after it; `none` models a raised `json.JSONDecodeError`. -/
def json_loads (s : String) : Option JValue :=
  match pValue (2 * s.length + 8) s.data with
  | some (v, rest) =>
    match skipWs rest with
    | [] => some v
    | _ => none
  | none => none

/-- `BaseAgent.parse_input_data` (base_agent.py lines 180-195): an absent
or falsy (empty) `input_data` yields `{}`, a `JSONDecodeError` is caught
and yields `{}`, and otherwise the parsed JSON value — whatever its type —
is returned as-is. -/
def parse_input_data (input_data : Option String) : JValue :=
  match input_data with
  | none => JValue.obj []
  | some s =>
    if s == "" then JValue.obj []
    else
      match json_loads s with
      | some v => v
      | none => JValue.obj []

/-- Modelled from the spec (§4.1): the legal transitions of the task state
machine ("all others are illegal and must fail with a `InvalidTransition`
error").  Used only to compare the spec's state machine with the code's
behavior; the code itself contains no such check. -/
def specAllowedTransition : TaskStatus → TaskStatus → Bool
  | .pending, .in_progress => true
  | .in_progress, .completed => true
  | .in_progress, .failed => true
  | .in_progress, .waiting_input => true
  | .in_progress, .waiting_approval => true
  | .waiting_input, .pending => true
  | .waiting_approval, .pending => true
  | .failed, .pending => true
  | .pending, .cancelled => true
  | .in_progress, .cancelled => true
  | .waiting_input, .cancelled => true
  | .waiting_approval, .cancelled => true
  | _, _ => false

/-- A fresh task row with the model defaults, for concrete scenarios. -/
def sampleTask (tid : Nat) (tt : TaskType) (st : TaskStatus) (prio : Int)
    (created : Nat) : Task :=
  { id := tid
    task_type := tt
    status := st
    priority := prio
    chat_id := "chat1"
    message_id := none
    assigned_agent := none
    input_data := none
    output_data := none
    error_message := none
    parent_task_id := none
    step_number := 1
    total_steps := 1
    created_at := created
    started_at := none
    completed_at := none
    deadline := none
    retry_count := 0
    max_retries := 3 }

/-- Store with one `Completed` task (id 1). -/
def storeCompleted : Store :=
  { tasks := [{ sampleTask 1 TaskType.triage TaskStatus.completed 5 0 with
                started_at := some 1, completed_at := some 3 }]
    queue := []
    next_id := 2 }

/-- Store with one `Pending` task of kind `reminder` (id 1), queued — a
kind no registered agent can handle. -/
def storeReminder : Store :=
  { tasks := [sampleTask 1 TaskType.reminder TaskStatus.pending 5 0]
    queue := [1]
    next_id := 2 }

/-- Store with one `Failed` task (id 1) whose retry budget is not yet
exhausted. -/
def storeFailed : Store :=
  { tasks := [{ sampleTask 1 TaskType.triage TaskStatus.failed 5 0 with
                started_at := some 1, error_message := some "boom", retry_count := 1 }]
    queue := []
    next_id := 2 }

/-- Store with ten priority-5 pending tasks created at times 0..9 and one
priority-1 pending task created last (time 10). -/
def storeTenPlusOne : Store :=
  { tasks := (List.range 10).map (fun i => sampleTask (i + 1) TaskType.triage TaskStatus.pending 5 i)
      ++ [sampleTask 11 TaskType.triage TaskStatus.pending 1 10]
    queue := (List.range 10).map (· + 1) ++ [11]
    next_id := 12 }

/-- The store of a fresh deployment: no tasks, empty queue. -/
def emptyStore : Store := { tasks := [], queue := [], next_id := 1 }

/-- A successful `process` result with an empty payload, for concrete
scenarios. -/
def okResult : ProcessResult :=
  { success := true, response := "", data := [], error := none }

/-- The retry-budget invariant of claim C3: no task's `retry_count`
exceeds its `max_retries`. -/
def retryInv (s : Store) : Prop :=
  ∀ t ∈ s.tasks, t.retry_count ≤ t.max_retries

/-- Well-formedness the database guarantees (primary-key uniqueness and
autoincrement freshness): distinct rows have distinct ids, all below the
autoincrement counter. -/
def wfIds (s : Store) : Prop :=
  s.tasks.Pairwise (fun a b => a.id ≠ b.id) ∧ ∀ t ∈ s.tasks, t.id < s.next_id

/-- Combined inductive invariant used to prove C3's reachability claim. -/
def storeInv (s : Store) : Prop := wfIds s ∧ retryInv s

theorem find_modify_list (l : List Task) (tid : Nat) (f : Task → Task)
    (hf : ∀ u, (f u).id = u.id) :
    (l.map (fun u => if u.id == tid then f u else u)).find? (fun t => t.id == tid)
      = (l.find? (fun t => t.id == tid)).map f := by
  induction l with
  | nil => rfl
  | cons a l ih =>
    simp only [List.map_cons]
    by_cases h : (a.id == tid) = true
    · have h2 : ((f a).id == tid) = true := by rw [hf a]; exact h
      rw [if_pos h]
      simp [List.find?_cons, h, h2]
    · have h2 : (a.id == tid) = false := by simpa using h
      rw [if_neg h]
      simp only [List.find?_cons, h2, cond_false]
      exact ih

theorem get_task_modify (s : Store) (tid : Nat) (f : Task → Task)
    (hf : ∀ u, (f u).id = u.id) :
    get_task (modify_task s tid f) tid = (get_task s tid).map f :=
  find_modify_list s.tasks tid f hf

theorem find_unique (l : List Task) (tid : Nat) (t : Task)
    (hnd : l.Pairwise (fun a b => a.id ≠ b.id))
    (hf : l.find? (fun u => u.id == tid) = some t) :
    ∀ u ∈ l, u.id = tid → u = t := by
  induction l with
  | nil => intro u hu; cases hu
  | cons a l ih =>
    intro u hu hid
    by_cases h : (a.id == tid) = true
    · simp only [List.find?_cons, h] at hf
      have hat : a = t := by injection hf
      rcases List.mem_cons.mp hu with rfl | hu2
      · exact hat
      · exfalso
        have hne : a.id ≠ u.id := (List.pairwise_cons.mp hnd).1 u hu2
        exact hne (by rw [hid]; exact beq_iff_eq.mp h)
    · have h2 : (a.id == tid) = false := by simpa using h
      simp only [List.find?_cons, h2] at hf
      rcases List.mem_cons.mp hu with rfl | hu2
      · exact absurd (by simp [hid]) h
      · exact ih (List.pairwise_cons.mp hnd).2 hf u hu2 hid

theorem storeInv_queue (s : Store) (q : List Nat) :
    storeInv { s with queue := q } ↔ storeInv s :=
  Iff.rfl

theorem wfIds_modify (s : Store) (tid : Nat) (f : Task → Task)
    (hf : ∀ u, (f u).id = u.id) (h : wfIds s) : wfIds (modify_task s tid f) := by
  have gid : ∀ u : Task, (if u.id == tid then f u else u).id = u.id := by
    intro u
    by_cases hc : (u.id == tid) = true
    · rw [if_pos hc]; exact hf u
    · rw [if_neg hc]
  constructor
  · exact List.pairwise_map.mpr (h.1.imp (by
      intro a b hab
      rw [gid a, gid b]
      exact hab))
  · intro t ht
    rcases List.mem_map.mp ht with ⟨u, hu, rfl⟩
    rw [gid u]
    exact h.2 u hu

theorem retryInv_modify (s : Store) (tid : Nat) (f : Task → Task)
    (hpres : ∀ u, u.retry_count ≤ u.max_retries → (f u).retry_count ≤ (f u).max_retries)
    (h : retryInv s) : retryInv (modify_task s tid f) := by
  intro t ht
  rcases List.mem_map.mp ht with ⟨u, hu, rfl⟩
  by_cases hc : (u.id == tid) = true
  · rw [if_pos hc]
    exact hpres u (h u hu)
  · rw [if_neg hc]
    exact h u hu

theorem storeInv_modify (s : Store) (tid : Nat) (f : Task → Task)
    (hf : ∀ u, (f u).id = u.id)
    (hpres : ∀ u, u.retry_count ≤ u.max_retries → (f u).retry_count ≤ (f u).max_retries)
    (h : storeInv s) : storeInv (modify_task s tid f) :=
  ⟨wfIds_modify s tid f hf h.1, retryInv_modify s tid f hpres h.2⟩

theorem storeInv_append_fresh (s : Store) (t : Task) (q : List Nat)
    (hid : t.id = s.next_id) (hr : t.retry_count ≤ t.max_retries) (h : storeInv s) :
    storeInv { tasks := s.tasks ++ [t], queue := q, next_id := s.next_id + 1 } := by
  refine ⟨⟨?_, ?_⟩, ?_⟩
  · rw [List.pairwise_append]
    refine ⟨h.1.1, List.pairwise_singleton _ _, ?_⟩
    intro a ha b hb
    rcases List.mem_singleton.mp hb with rfl
    rw [hid]
    exact Nat.ne_of_lt (h.1.2 a ha)
  · intro u hu
    rcases List.mem_append.mp hu with hu2 | hu2
    · exact Nat.lt_succ_of_lt (h.1.2 u hu2)
    · rcases List.mem_singleton.mp hu2 with rfl
      rw [hid]
      exact Nat.lt_succ_self _
  · intro u hu
    rcases List.mem_append.mp hu with hu2 | hu2
    · exact h.2 u hu2
    · rcases List.mem_singleton.mp hu2 with rfl
      exact hr

theorem exec_begin_inv (s : Store) (tid : Nat) (agent : String) (now : Nat)
    (h : storeInv s) : storeInv (exec_begin s tid agent now) :=
  storeInv_modify s tid _ (fun _ => rfl) (fun _ hu => hu) h

theorem exec_finish_inv (s : Store) (tid : Nat) (oc : ProcOutcome) (now : Nat)
    (h : storeInv s) : storeInv (exec_finish s tid oc now) := by
  cases oc with
  | ok r =>
    apply storeInv_modify
    · intro u
      dsimp only
      split <;> rfl
    · intro u hu
      dsimp only
      split <;> exact hu
    · exact h
  | exn m => exact storeInv_modify s tid _ (fun _ => rfl) (fun _ hu => hu) h

theorem storeInv_applyOp (s : Store) (op : Op) (h : storeInv s) : storeInv (applyOp s op) := by
  cases op with
  | create tt c m i p d n =>
    exact storeInv_append_fresh s _ (s.queue ++ [s.next_id]) rfl (Nat.zero_le _) h
  | subtask pt tt i p n =>
    simp only [applyOp, create_subtask]
    cases hg : get_task s pt with
    | none => exact h
    | some parent =>
      exact storeInv_append_fresh s _ s.queue rfl (Nat.zero_le _) h
  | update tid st o e n =>
    cases hg : get_task s tid with
    | none => simp only [applyOp, update_task_status, hg]; exact h
    | some t =>
      simp only [applyOp, update_task_status, hg]
      exact storeInv_modify s tid _ (fun _ => rfl) (fun _ hu => hu) h
  | retry tid =>
    cases hg : get_task s tid with
    | none => simp only [applyOp, retry_failed_task, hg]; exact h
    | some t =>
      simp only [applyOp, retry_failed_task, hg]
      by_cases hst : t.status ≠ TaskStatus.failed
      · rw [if_pos hst]
        exact h
      · rw [if_neg hst]
        by_cases hb : t.retry_count ≥ t.max_retries
        · rw [if_pos hb]
          exact h
        · rw [if_neg hb]
          refine (storeInv_queue _ _).mpr ⟨wfIds_modify s tid _ (fun _ => rfl) h.1, ?_⟩
          intro u hu
          rcases List.mem_map.mp hu with ⟨v, hv, rfl⟩
          by_cases hc : (v.id == tid) = true
          · rw [if_pos hc]
            have hvt : v = t := find_unique s.tasks tid t h.1.1 hg v hv (beq_iff_eq.mp hc)
            subst hvt
            exact Nat.succ_le_of_lt (Nat.lt_of_not_le hb)
          · rw [if_neg hc]
            exact h.2 v hv
  | cancel tid r n =>
    cases hg : get_task s tid with
    | none => simp only [applyOp, cancel_task, hg]; exact h
    | some t =>
      simp only [applyOp, cancel_task, hg]
      exact storeInv_modify s tid _ (fun _ => rfl) (fun _ hu => hu) h
  | exec tid a oc n =>
    simp only [applyOp, execute]
    exact exec_finish_inv _ tid oc n (exec_begin_inv s tid a n h)
  | dispatch oc n =>
    cases hq : s.queue with
    | nil => simp only [applyOp, dispatch_iteration, hq]; exact h
    | cons tid rest =>
      have h1 : storeInv { s with queue := rest } := (storeInv_queue s rest).mpr h
      cases hg : get_task { s with queue := rest } tid with
      | none => simp only [applyOp, dispatch_iteration, hq, hg]; exact h1
      | some t =>
        simp only [applyOp, dispatch_iteration, hq, hg]
        by_cases hp : t.status ≠ TaskStatus.pending
        · rw [if_pos hp]
          exact h1
        · rw [if_neg hp]
          cases ha : find_agent_for_task t with
          | none => simp only [process_task, ha]; exact h1
          | some ag =>
            simp only [process_task, ha, execute]
            exact exec_finish_inv _ t.id (oc ag) n (exec_begin_inv _ t.id ag.agent_type n h1)

theorem storeInv_runOps (s : Store) (ops : List Op) (h : storeInv s) :
    storeInv (runOps s ops) := by
  induction ops generalizing s with
  | nil => exact h
  | cons op ops ih => exact ih (applyOp s op) (storeInv_applyOp s op h)

theorem storeInv_empty : storeInv emptyStore := by
  refine ⟨⟨List.Pairwise.nil, ?_⟩, ?_⟩ <;> intro t ht <;> cases ht

theorem get_task_queue (s : Store) (q : List Nat) (tid : Nat) :
    get_task { s with queue := q } tid = get_task s tid := rfl

theorem get_task_update_fields (s : Store) (tid : Nat) (st : TaskStatus)
    (o : Option (List (String × String))) (e : Option String) (now : Nat) :
    get_task (modify_task s tid (update_fields st o e now)) tid
      = (get_task s tid).map (update_fields st o e now) :=
  get_task_modify s tid (update_fields st o e now) (fun _ => rfl)

theorem get_task_cancel_fields (s : Store) (tid : Nat) (reason : String) (now : Nat) :
    get_task (modify_task s tid (fun u =>
      { u with
          status := TaskStatus.cancelled
          error_message := some (if reason ≠ "" then "Cancelled: " ++ reason
            else "Cancelled by user")
          completed_at := some now })) tid
      = (get_task s tid).map (fun u =>
      { u with
          status := TaskStatus.cancelled
          error_message := some (if reason ≠ "" then "Cancelled: " ++ reason
            else "Cancelled by user")
          completed_at := some now }) :=
  get_task_modify s tid _ (fun _ => rfl)

theorem get_task_retry_fields (s : Store) (tid : Nat) :
    get_task (modify_task s tid (fun u =>
      { u with
          status := TaskStatus.pending
          retry_count := u.retry_count + 1
          error_message := none
          started_at := none
          completed_at := none })) tid
      = (get_task s tid).map (fun u =>
      { u with
          status := TaskStatus.pending
          retry_count := u.retry_count + 1
          error_message := none
          started_at := none
          completed_at := none }) :=
  get_task_modify s tid _ (fun _ => rfl)

/-- C1: the claim says `UpdateStatus` permits only the spec's state-machine
transitions and fails with an `InvalidTransition` error otherwise, leaving
the record unchanged.  Counterexample: the transition Completed → Pending
is not permitted by the spec's machine, yet on a store whose task 1 is
`Completed`, `update_task_status` returns True and overwrites the status —
the code contains no transition validation at all. -/
theorem C1_counterexample :
    specAllowedTransition TaskStatus.completed TaskStatus.pending = false ∧
    (update_task_status storeCompleted 1 TaskStatus.pending none none 9).1 = true ∧
    ((get_task (update_task_status storeCompleted 1 TaskStatus.pending none none 9).2 1).map
        Task.status) = some TaskStatus.pending := by
  refine ⟨rfl, rfl, rfl⟩

/-- C1 (amended): `UpdateStatus` performs no transition validation and
raises no `InvalidTransition` error: for any existing task — whatever its
current status and whatever status is requested — it unconditionally
applies `update_fields` (sets the requested status, writes output/error
when truthy, stamps `completed_at` only when the new status is
`Completed`) and returns true; it returns false, changing nothing, exactly
when the task id does not exist. -/
theorem C1_update_status_no_validation :
    (∀ s tid st o e now, get_task s tid = none →
      update_task_status s tid st o e now = (false, s)) ∧
    (∀ s tid st o e now t, get_task s tid = some t →
      (update_task_status s tid st o e now).1 = true ∧
      get_task (update_task_status s tid st o e now).2 tid
        = some (update_fields st o e now t)) := by
  constructor
  · intro s tid st o e now hg
    simp [update_task_status, hg]
  · intro s tid st o e now t hg
    refine ⟨by simp [update_task_status, hg], ?_⟩
    simp only [update_task_status, hg]
    rw [get_task_update_fields, hg]
    rfl

/-- C1 (witness): instantiating the amended theorem on the concrete store
whose task 1 is `Completed`, requesting `WaitingInput`. -/
theorem C1_witness :
    (update_task_status storeCompleted 1 TaskStatus.waiting_input none none 4).1 = true ∧
    get_task (update_task_status storeCompleted 1 TaskStatus.waiting_input none none 4).2 1
      = some (update_fields TaskStatus.waiting_input none none 4
          { sampleTask 1 TaskType.triage TaskStatus.completed 5 0 with
              started_at := some 1, completed_at := some 3 }) :=
  C1_update_status_no_validation.2 storeCompleted 1 TaskStatus.waiting_input none none 4
    { sampleTask 1 TaskType.triage TaskStatus.completed 5 0 with
        started_at := some 1, completed_at := some 3 } rfl

/-- C5: the claim says `CancelTask` succeeds only on non-terminal tasks
and leaves `Completed`/`Cancelled` tasks unchanged.  Counterexample: on a
store whose task 1 is `Completed`, `cancel_task` returns True, overwrites
the status with `Cancelled`, writes the reason into `error_message`, and
restamps `completed_at`. -/
theorem C5_counterexample :
    ((get_task storeCompleted 1).map Task.status) = some TaskStatus.completed ∧
    (cancel_task storeCompleted 1 "user request" 9).1 = true ∧
    ((get_task (cancel_task storeCompleted 1 "user request" 9).2 1).map Task.status)
      = some TaskStatus.cancelled ∧
    ((get_task (cancel_task storeCompleted 1 "user request" 9).2 1).map Task.error_message)
      = some (some "Cancelled: user request") ∧
    ((get_task (cancel_task storeCompleted 1 "user request" 9).2 1).map Task.completed_at)
      = some (some 9) := by
  refine ⟨rfl, rfl, rfl, rfl, rfl⟩

/-- C5 (amended): `cancel_task` succeeds for every existing task whatever
its status — including `Completed` and `Cancelled`, which it overwrites —
setting `Cancelled`, recording the reason as "Cancelled: " + reason (or
"Cancelled by user" when the reason is empty) and stamping `completed_at`;
it returns false, changing nothing, exactly when the task does not
exist. -/
theorem C5_cancel_any_status :
    (∀ s tid reason now, get_task s tid = none →
      cancel_task s tid reason now = (false, s)) ∧
    (∀ s tid reason now t, get_task s tid = some t →
      (cancel_task s tid reason now).1 = true ∧
      get_task (cancel_task s tid reason now).2 tid = some
        { t with
            status := TaskStatus.cancelled
            error_message := some (if reason ≠ "" then "Cancelled: " ++ reason
              else "Cancelled by user")
            completed_at := some now }) := by
  constructor
  · intro s tid reason now hg
    simp [cancel_task, hg]
  · intro s tid reason now t hg
    refine ⟨by simp [cancel_task, hg], ?_⟩
    simp only [cancel_task, hg]
    rw [get_task_cancel_fields, hg]
    rfl

/-- C5 (witness): instantiating the amended theorem on the store whose
task 1 is already `Completed`. -/
theorem C5_witness :
    (cancel_task storeCompleted 1 "dup" 11).1 = true ∧
    get_task (cancel_task storeCompleted 1 "dup" 11).2 1 = some
      { sampleTask 1 TaskType.triage TaskStatus.completed 5 0 with
          started_at := some 1
          status := TaskStatus.cancelled
          error_message := some (if "dup" ≠ "" then "Cancelled: " ++ "dup" else "Cancelled by user")
          completed_at := some 11 } :=
  C5_cancel_any_status.2 storeCompleted 1 "dup" 11
    { sampleTask 1 TaskType.triage TaskStatus.completed 5 0 with
        started_at := some 1, completed_at := some 3 } rfl

/-- C3: `retry_failed_task` returns true exactly when the task exists, is
`Failed`, and `retry_count < max_retries` — in that case resetting the
status to `Pending`, incrementing `retry_count`, clearing
`error_message`/`started_at`/`completed_at` and re-enqueueing the id — and
in every other case (missing task, non-Failed status, exhausted budget)
returns false and changes nothing; moreover every store reachable from the
empty store by the public operations satisfies
`retry_count ≤ max_retries` for all its tasks. -/
theorem C3_retry_semantics :
    (∀ s tid, get_task s tid = none → retry_failed_task s tid = (false, s)) ∧
    (∀ s tid t, get_task s tid = some t → t.status ≠ TaskStatus.failed →
      retry_failed_task s tid = (false, s)) ∧
    (∀ s tid t, get_task s tid = some t → t.max_retries ≤ t.retry_count →
      retry_failed_task s tid = (false, s)) ∧
    (∀ s tid t, get_task s tid = some t → t.status = TaskStatus.failed →
      t.retry_count < t.max_retries →
      (retry_failed_task s tid).1 = true ∧
      ((retry_failed_task s tid).2).queue = s.queue ++ [tid] ∧
      get_task (retry_failed_task s tid).2 tid = some
        { t with
            status := TaskStatus.pending
            retry_count := t.retry_count + 1
            error_message := none
            started_at := none
            completed_at := none }) ∧
    (∀ ops, ∀ t ∈ (runOps emptyStore ops).tasks, t.retry_count ≤ t.max_retries) := by
  refine ⟨?_, ?_, ?_, ?_, ?_⟩
  · intro s tid hg
    simp [retry_failed_task, hg]
  · intro s tid t hg hst
    simp only [retry_failed_task, hg]
    rw [if_pos hst]
  · intro s tid t hg hb
    simp only [retry_failed_task, hg]
    by_cases hst : t.status ≠ TaskStatus.failed
    · rw [if_pos hst]
    · rw [if_neg hst, if_pos hb]
  · intro s tid t hg hst hlt
    simp only [retry_failed_task, hg]
    rw [if_neg (not_not_intro hst), if_neg (Nat.not_le.mpr hlt)]
    refine ⟨rfl, rfl, ?_⟩
    show get_task (modify_task s tid (fun u =>
      { u with
          status := TaskStatus.pending
          retry_count := u.retry_count + 1
          error_message := none
          started_at := none
          completed_at := none })) tid = _
    rw [get_task_retry_fields, hg]
    rfl
  · intro ops t ht
    exact (storeInv_runOps emptyStore ops storeInv_empty).2 t ht

/-- C3 (witness): instantiating the successful-retry rule on a concrete
store whose task 1 is `Failed` with `retry_count = 1 < 3`. -/
theorem C3_witness :
    (retry_failed_task storeFailed 1).1 = true ∧
    ((retry_failed_task storeFailed 1).2).queue = storeFailed.queue ++ [1] ∧
    get_task (retry_failed_task storeFailed 1).2 1 = some
      { { sampleTask 1 TaskType.triage TaskStatus.failed 5 0 with
            started_at := some 1, error_message := some "boom", retry_count := 1 } with
          status := TaskStatus.pending
          retry_count := 1 + 1
          error_message := none
          started_at := none
          completed_at := none } :=
  C3_retry_semantics.2.2.2.1 storeFailed 1
    { sampleTask 1 TaskType.triage TaskStatus.failed 5 0 with
        started_at := some 1, error_message := some "boom", retry_count := 1 }
    rfl rfl (by decide)

/-- C4: the claim says a dequeued Pending task with no capable agent gets
its persisted state updated to `Failed` with a non-empty error message.
Counterexample: no registered agent handles kind `reminder`, and after one
dispatch iteration on a store holding a pending reminder task the task is
still `Pending` with a null `error_message` — the failure dictionary built
by `process_task` is discarded by the dispatch loop, never persisted. -/
theorem C4_counterexample :
    find_agent_for_task (sampleTask 1 TaskType.reminder TaskStatus.pending 5 0) = none ∧
    ((get_task (dispatch_iteration storeReminder (fun _ => ProcOutcome.ok okResult) 9) 1).map
        Task.status) = some TaskStatus.pending ∧
    ((get_task (dispatch_iteration storeReminder (fun _ => ProcOutcome.ok okResult) 9) 1).map
        Task.error_message) = some none ∧
    (dispatch_iteration storeReminder (fun _ => ProcOutcome.ok okResult) 9).queue = [] := by
  refine ⟨rfl, rfl, rfl, rfl⟩

/-- C4 (amended): when the dispatch loop dequeues a Pending task no
registered agent can handle, `process_task` returns an in-memory failure
dictionary ("No agent available to handle task type: ...") but the store
is left untouched except for the dequeue: the task stays `Pending` with
its `error_message` unwritten (the failure is not observable by querying
the task), and the id is not re-enqueued, so the task is not retried
automatically. -/
theorem C4_no_agent_silent :
    ∀ s tid rest t outcome now,
      s.queue = tid :: rest →
      get_task s tid = some t →
      t.status = TaskStatus.pending →
      find_agent_for_task t = none →
      dispatch_iteration s outcome now = { s with queue := rest } ∧
      (process_task s t outcome now).1.success = false ∧
      (process_task s t outcome now).1.error
        = some ("No agent available to handle task type: " ++ t.task_type.value) := by
  intro s tid rest t outcome now hq hg hp ha
  refine ⟨?_, ?_, ?_⟩
  · simp only [dispatch_iteration, hq, get_task_queue, hg]
    rw [if_neg (not_not_intro hp)]
    simp only [process_task, ha]
  · simp only [process_task, ha]
  · simp only [process_task, ha]

/-- C4 (witness): instantiating the amended theorem on the concrete store
holding a queued pending `reminder` task. -/
theorem C4_witness :
    dispatch_iteration storeReminder (fun _ => ProcOutcome.ok okResult) 3
      = { storeReminder with queue := [] } ∧
    (process_task storeReminder (sampleTask 1 TaskType.reminder TaskStatus.pending 5 0)
        (fun _ => ProcOutcome.ok okResult) 3).1.success = false ∧
    (process_task storeReminder (sampleTask 1 TaskType.reminder TaskStatus.pending 5 0)
        (fun _ => ProcOutcome.ok okResult) 3).1.error
      = some ("No agent available to handle task type: "
          ++ (sampleTask 1 TaskType.reminder TaskStatus.pending 5 0).task_type.value) :=
  C4_no_agent_silent storeReminder 1 []
    (sampleTask 1 TaskType.reminder TaskStatus.pending 5 0)
    (fun _ => ProcOutcome.ok okResult) 3 rfl rfl rfl rfl

/-- C6: `get_pending_tasks` returns only tasks of the store whose status
is `Pending` (and of the filtered kind when a filter is given), sorted by
`(priority ascending, created_at ascending)`, truncated to at most `limit`
items; in particular on a store with ten priority-5 tasks created first
and one priority-1 task created last, the priority-1 task is returned
first. -/
theorem C6_pending_order :
    (∀ s limit k t, t ∈ get_pending_tasks s limit k →
      t ∈ s.tasks ∧ t.status = TaskStatus.pending ∧ ∀ x, k = some x → t.task_type = x) ∧
    (∀ s limit k, (get_pending_tasks s limit k).Pairwise pendingOrder) ∧
    (∀ s limit k, (get_pending_tasks s limit k).length ≤ limit) ∧
    ((get_pending_tasks storeTenPlusOne 10 none).head?.map Task.id = some 11 ∧
     (get_pending_tasks storeTenPlusOne 10 none).head?.map Task.priority = some 1) := by
  refine ⟨?_, ?_, ?_, by decide, by decide⟩
  · intro s limit k t ht
    have ht2 := List.mem_insertionSort pendingOrder |>.mp ((List.take_sublist _ _).subset ht)
    cases k with
    | none =>
      rcases List.mem_filter.mp ht2 with ⟨hmem, hpend⟩
      exact ⟨hmem, by simpa using hpend, fun x hx => by cases hx⟩
    | some x =>
      rcases List.mem_filter.mp ht2 with ⟨hmem2, htype⟩
      rcases List.mem_filter.mp hmem2 with ⟨hmem, hpend⟩
      refine ⟨hmem, by simpa using hpend, fun y hy => ?_⟩
      cases hy
      simpa using htype
  · intro s limit k
    exact (List.sorted_insertionSort pendingOrder _).sublist (List.take_sublist _ _)
  · intro s limit k
    exact List.length_take_le _ _

/-- C6 (witness): instantiating the membership rule at the priority-1
task of the concrete eleven-task store. -/
theorem C6_witness :
    sampleTask 11 TaskType.triage TaskStatus.pending 1 10 ∈ storeTenPlusOne.tasks ∧
    (sampleTask 11 TaskType.triage TaskStatus.pending 1 10).status = TaskStatus.pending :=
  ⟨(C6_pending_order.1 storeTenPlusOne 10 none
      (sampleTask 11 TaskType.triage TaskStatus.pending 1 10) (by decide)).1,
   (C6_pending_order.1 storeTenPlusOne 10 none
      (sampleTask 11 TaskType.triage TaskStatus.pending 1 10) (by decide)).2.1⟩

/-- C7: the claim says `OrchestratorAgent.process` returns `success=true`
for every message content, including empty text.  Counterexample: on an
empty (or whitespace-only) message body, `process` short-circuits to a
failure result with error "No message content to process" and no data
payload — with or without a configured classification backend. -/
theorem C7_counterexample :
    (orchestrator_process "" false none).success = false ∧
    (orchestrator_process "" false none).error = some "No message content to process" ∧
    (orchestrator_process "" false none).data = none ∧
    (orchestrator_process "   " true (some
      { task_type := TaskType.general_inquiry
        agent_type := some "inquiry_agent"
        confidence := some (9/10 : ℚ)
        keywords_matched := none
        method := "llm" })).success = false := by
  refine ⟨rfl, rfl, rfl, rfl⟩

/-- C7 (amended): for every message body whose stripped content is
non-empty, `process` returns `success=true` with a data payload carrying
`routed_to` and `confidence`, whatever the classification backend does
(classification itself never fails — worst case is the low-confidence
fallback); but for an empty or whitespace-only body it returns
`success=false` with error "No message content to process". -/
theorem C7_process_success :
    (∀ body llmc llmr, py_strip body ≠ "" →
      (orchestrator_process body llmc llmr).success = true ∧
      (orchestrator_process body llmc llmr).data.isSome = true ∧
      (orchestrator_process body llmc llmr).error = none) ∧
    (∀ body llmc llmr, py_strip body = "" →
      (orchestrator_process body llmc llmr).success = false ∧
      (orchestrator_process body llmc llmr).error = some "No message content to process" ∧
      (orchestrator_process body llmc llmr).data = none) := by
  constructor
  · intro body llmc llmr hne
    refine ⟨?_, ?_, ?_⟩ <;> simp [orchestrator_process, hne]
  · intro body llmc llmr he
    refine ⟨?_, ?_, ?_⟩ <;> simp [orchestrator_process, he]

/-- C7 (witness): instantiating the non-empty rule at the message "hello"
with no backend configured. -/
theorem C7_witness :
    (orchestrator_process "hello" false none).success = true ∧
    (orchestrator_process "hello" false none).data.isSome = true ∧
    (orchestrator_process "hello" false none).error = none :=
  C7_process_success.1 "hello" false none (by decide)

/-- C8: whenever the lowercased message contains at least one cancel
keyword and at least one appointment keyword, the keyword tier (the spec's
"heuristic" tier) classifies it as `appointment_cancel` routed to
`appointment_agent` with confidence `min(0.9, 0.7 + 0.1 × cancel_count)` —
this rule is the first checked, so it takes priority over all later
rules — and concretely, processing "I want to cancel my appointment" with
no backend configured yields `success=true`,
`data.routed_to = "appointment_agent"`, confidence `0.8 ≥ 0.7`, and the
keyword-tier method tag (`method = "keyword"`, the code's name for the
spec's `heuristic`). -/
theorem C8_cancel_rule :
    (∀ message, 0 < countMatches message cancel_keywords →
      0 < countMatches message appointment_keywords →
      keyword_based_routing message =
        { task_type := TaskType.appointment_cancel
          agent_type := some "appointment_agent"
          confidence := some (min (9/10 : ℚ)
            (7/10 + (countMatches message cancel_keywords : ℚ) * (1/10)))
          keywords_matched := some (countMatches message cancel_keywords
            + countMatches message appointment_keywords)
          method := "keyword" }) ∧
    ((orchestrator_process "I want to cancel my appointment" false none).success = true ∧
     ((orchestrator_process "I want to cancel my appointment" false none).data.map
        RoutingData.routed_to) = some "appointment_agent" ∧
     ((orchestrator_process "I want to cancel my appointment" false none).data.map
        RoutingData.confidence) = some (4/5 : ℚ) ∧
     (7/10 : ℚ) ≤ (4/5 : ℚ) ∧
     ((orchestrator_process "I want to cancel my appointment" false none).data.map
        (fun d => d.intent.method)) = some "keyword") := by
  have hrule : ∀ message, 0 < countMatches message cancel_keywords →
      0 < countMatches message appointment_keywords →
      keyword_based_routing message =
        { task_type := TaskType.appointment_cancel
          agent_type := some "appointment_agent"
          confidence := some (min (9/10 : ℚ)
            (7/10 + (countMatches message cancel_keywords : ℚ) * (1/10)))
          keywords_matched := some (countMatches message cancel_keywords
            + countMatches message appointment_keywords)
          method := "keyword" } := by
    intro message h1 h2
    simp only [keyword_based_routing]
    rw [if_pos ⟨h1, h2⟩]
  have hstrip : py_strip "I want to cancel my appointment"
      = "I want to cancel my appointment" := rfl
  have hlower : py_lower "I want to cancel my appointment"
      = "i want to cancel my appointment" := rfl
  have hc : countMatches "i want to cancel my appointment" cancel_keywords = 1 := rfl
  have hkw : keyword_based_routing "i want to cancel my appointment" =
      { task_type := TaskType.appointment_cancel
        agent_type := some "appointment_agent"
        confidence := some (min (9/10 : ℚ) (7/10 + ((1 : ℕ) : ℚ) * (1/10)))
        keywords_matched := some (1
          + countMatches "i want to cancel my appointment" appointment_keywords)
        method := "keyword" } := by
    have h := hrule "i want to cancel my appointment" (by decide) (by decide)
    rw [hc] at h
    exact h
  have hgt : ¬ (min (9/10 : ℚ) (7/10 + ((1 : ℕ) : ℚ) * (1/10)) > (8/10 : ℚ)) := by
    norm_num
  have hia : analyze_intent "I want to cancel my appointment" false none =
      { task_type := TaskType.appointment_cancel
        agent_type := some "appointment_agent"
        confidence := some (min (9/10 : ℚ) (7/10 + ((1 : ℕ) : ℚ) * (1/10)))
        keywords_matched := some (1
          + countMatches "i want to cancel my appointment" appointment_keywords)
        method := "keyword" } := by
    simp only [analyze_intent, hlower, hkw, Option.getD_some]
    rw [if_neg hgt]
    simp
  refine ⟨hrule, ?_, ?_, ?_, by norm_num, ?_⟩
  · simp [orchestrator_process, hstrip]
  · simp [orchestrator_process, hstrip, hia]
  · simp only [orchestrator_process, hstrip]
    rw [if_neg (by decide : ¬ ((("I want to cancel my appointment" : String) == "") = true))]
    simp only [hia, Option.map_some, Option.getD_some]
    norm_num
  · simp [orchestrator_process, hstrip, hia]

/-- C8 (witness): instantiating the cancel rule at the lowercased message
"cancel my appointment", whose cancel count is 1 and appointment count is
2. -/
theorem C8_witness :
    keyword_based_routing "cancel my appointment" =
      { task_type := TaskType.appointment_cancel
        agent_type := some "appointment_agent"
        confidence := some (min (9/10 : ℚ)
          (7/10 + (countMatches "cancel my appointment" cancel_keywords : ℚ) * (1/10)))
        keywords_matched := some (countMatches "cancel my appointment" cancel_keywords
          + countMatches "cancel my appointment" appointment_keywords)
        method := "keyword" } :=
  C8_cancel_rule.1 "cancel my appointment" (by decide) (by decide)

/-- C10: the claim (and the function's own annotation and docstring) say
`parse_input_data` always returns a key/value mapping, the empty mapping
when `input_data` is absent or invalid JSON, and never raises.  It is
total and does return `{}` for absent/empty/invalid input, but for a
stored payload that is valid JSON of a non-object type — e.g. the array
text "[1, 2]" — it returns the parsed non-mapping value unchecked,
contradicting its declared `Dict[str, Any]` contract: a code bug.  This
theorem evaluates the code at the failing input. -/
theorem C10_parse_input_data_eval :
    parse_input_data (some "[1, 2]") = JValue.arr [JValue.num 1, JValue.num 2] ∧
    (parse_input_data (some "[1, 2]")).isMapping = false ∧
    parse_input_data none = JValue.obj [] ∧
    parse_input_data (some "") = JValue.obj [] ∧
    parse_input_data (some "not json") = JValue.obj [] ∧
    (parse_input_data (some "not json")).isMapping = true := by
  refine ⟨rfl, rfl, rfl, rfl, rfl, rfl⟩

end Orchestration
